import Mathlib

/-!
Shallow embedding of the argyle2 backend (Django/DRF, Python) in Lean 4.

The embedding follows the source files under `src/`:
  - `api/models.py`      : the `User` and `Song` records and their defaults,
  - `accounts/backends.py`: `EmailBackend.authenticate`,
  - `accounts/forms.py`  : `SignupForm.clean_email`,
  - `api/serializers.py` : the writable/read-only field split of `SongSerializer`,
  - `api/views.py`       : the `login`, `signup`, `get_current_user` endpoints and
    the `SongViewSet` methods (`get_queryset`, `get_user_from_token`, `list`,
    `create`, `retrieve`, and the default ModelViewSet `update`/`destroy`
    dispatch over `get_queryset`).

Django's persistent store is modelled as an explicit `List User` / `List Song`
passed in and returned.  Password hashing is modelled by an injective tagging
function; a JWT is modelled as its decoded payload together with the secret it
was signed with, so that signature verification becomes an equality test on
secrets and expiry a comparison against the current time (in whole seconds).
-/

namespace Argyle

/-- User record from `api/models.py` (`class User(AbstractUser)`): unique
email, optional display name, password hash.  `passwordHash = none` models a
Django unusable password (as set by `set_password(None)` for invited
accounts); `isActive` is `AbstractUser.is_active` (default `True`). -/
structure User where
  id : Nat
  email : String
  name : Option String
  passwordHash : Option String
  isActive : Bool
deriving Repr, DecidableEq

/-- Song record from `api/models.py` (`class Song`): owning user (FK, required),
title, sequence payload, optional metadata, visibility flag (default private),
creation timestamp (seconds). -/
structure Song where
  id : Nat
  userId : Nat
  title : String
  sequence : String
  keyInfo : Option String
  bpm : Option Int
  notes : Option String
  isPublic : Bool
  createdAt : Nat
deriving Repr, DecidableEq

/-- Model of Django's password hasher: an injective tag over the plaintext.
Only equality of hashes matters to the embedded code. -/
def hashPassword (p : String) : String := "pbkdf2_sha256$" ++ p

/-- Django `user.check_password(raw)`: the stored hash matches the hash of the
submitted plaintext (an unusable password matches nothing). -/
def checkPassword (u : User) (raw : String) : Bool :=
  u.passwordHash == some (hashPassword raw)

/-- Django `user.has_usable_password()`: true iff a real hash is stored. -/
def hasUsablePassword (u : User) : Bool := u.passwordHash.isSome

/-- ORM lookup `User.objects.get(email=...)` / `.filter(email=...).first()`
(email is unique at the store level). -/
def getUserByEmail (users : List User) (email : String) : Option User :=
  users.find? (fun u => u.email == email)

/-- ORM lookup `User.objects.get(id=...)`. -/
def getUserById (users : List User) (uid : Nat) : Option User :=
  users.find? (fun u => u.id == uid)

/-- Truthiness of an optional string field from `request.data.get(...)`:
Python `not x` is true for an absent field and for the empty string. -/
def pyFalsy : Option String → Bool
  | none => true
  | some s => s == ""

/-- Python `a or b` over an optional string and a fallback, as used in the
secret-resolution expression: an absent or empty left operand falls through. -/
def pyOrStr : Option String → String → String
  | none, fb => fb
  | some s, fb => if s == "" then fb else s

/-- The built-in fallback secret literal that appears at every secret
resolution site in `api/views.py`. -/
def defaultSecret : String := "django-insecure-change-me-in-production"

/-- Process environment as far as the views read it: the two secret
variables. -/
structure Env where
  nextauthSecret : Option String
  secretKey : Option String
deriving Repr, DecidableEq

/-- Secret resolution at the `login` issue site (`api/views.py` line 110):
`os.environ.get('NEXTAUTH_SECRET') or os.environ.get('SECRET_KEY') or
'django-insecure-change-me-in-production'`. -/
def loginSecret (env : Env) : String :=
  pyOrStr env.nextauthSecret (pyOrStr env.secretKey defaultSecret)

/-- Secret resolution at the `signup` issue site (`api/views.py` line 179),
textually identical to the `login` site. -/
def signupSecret (env : Env) : String :=
  pyOrStr env.nextauthSecret (pyOrStr env.secretKey defaultSecret)

/-- Secret resolution at the `get_current_user` validation site
(`api/views.py` line 232), textually identical to the issue sites. -/
def currentUserSecret (env : Env) : String :=
  pyOrStr env.nextauthSecret (pyOrStr env.secretKey defaultSecret)

/-- Secret resolution at the `SongViewSet.get_user_from_token` validation site
(`api/views.py` line 282), textually identical to the issue sites. -/
def songViewSecret (env : Env) : String :=
  pyOrStr env.nextauthSecret (pyOrStr env.secretKey defaultSecret)

/-- Spec-side definition (`Modelled from the spec` wording only, for the
refinement comparison of the secret rule): the first non-empty value in a
preference list of optional sources. -/
def firstNonEmpty : List (Option String) → Option String
  | [] => none
  | none :: rest => firstNonEmpty rest
  | some s :: rest => if s == "" then firstNonEmpty rest else some s

/-- JWT model: the decoded payload (`userId`, `email`, `name`, `exp`) together
with the secret the token was signed with.  Signature verification is equality
of this secret with the verifier's secret. -/
structure Token where
  userId : Nat
  email : String
  name : String
  exp : Nat
  secret : String
deriving Repr, DecidableEq

/-- Model of `jwt.decode(token, secret, algorithms=['HS256'])` on a
structurally well-formed token: signature mismatch and expiry both raise
`jwt.InvalidTokenError` in the source, collapsed here to `none`. -/
def jwtDecode (t : Token) (secret : String) (now : Nat) : Option Nat :=
  if t.secret == secret then
    if now < t.exp then some t.userId else none
  else none

/-- The `auth-token` cookie as a request can carry it: absent, present but not
a structurally valid signed token, or a well-formed token. -/
inductive CookieValue where
  | missing
  | malformed
  | token (t : Token)
deriving Repr, DecidableEq

/-- A `Set-Cookie` emitted by `response.set_cookie(...)` in the views. -/
structure SetCookie where
  name : String
  value : Token
  httponly : Bool
  secure : Bool
  samesite : String
  maxAge : Nat
  path : String
deriving Repr, DecidableEq

/-- Error messages used by the auth endpoints, named so each literal appears
once. -/
def msgEmailPasswordRequired : String := "Email and password are required"

/-- Generic 401 body of a failed login. -/
def msgInvalidCredentials : String := "Invalid credentials"

/-- Duplicate-email 400 body of the API signup endpoint. -/
def msgUserExists : String := "User with this email already exists"

/-- 401 body of `get_current_user` when the cookie is absent. -/
def msgNotAuthenticated : String := "Not authenticated"

/-- 401 body of `get_current_user` when the token fails to validate. -/
def msgInvalidToken : String := "Invalid token"

/-- 401 body of `SongViewSet.create` for an anonymous caller. -/
def msgAuthRequired : String := "Authentication required"

/-- 404 body of `SongViewSet.retrieve` / `get_object_or_404`. -/
def msgNotFound : String := "Not found"

/-- Validation message of `SignupForm.clean_email` (`accounts/forms.py`). -/
def msgFormDuplicate : String := "A user with this email address already exists."

/-- Stand-in for the DRF field-error body raised by
`serializer.is_valid(raise_exception=True)` (surfaced as HTTP 400). -/
def msgSerializerInvalid : String := "Invalid input"

/-- `EmailBackend.authenticate` from `accounts/backends.py`.  The second
component instruments the number of password-hash computations the call
performs (`User().set_password(password)` on the unknown-email path,
`user.check_password(password)` on the found-user path); the source returns
only the first component. -/
def authenticate (users : List User) (username password : Option String) :
    Option User × Nat :=
  match username, password with
  | some un, some pw =>
    match getUserByEmail users un with
    | none => (none, 1)
    | some u =>
      if checkPassword u pw && u.isActive then (some u, 1) else (none, 1)
  | _, _ => (none, 0)

/-- Response of the `login` and `signup` endpoints: an error body
`{'error': msg}` with a status, or a success body with the user fields and the
`Set-Cookie`. -/
inductive AuthResponse where
  | err (status : Nat) (error : String)
  | ok (status : Nat) (userId : Nat) (email : String) (name : Option String)
      (cookie : SetCookie)
deriving Repr, DecidableEq

/-- Seconds in the 7 days of `timedelta(days=7)` / `max_age=604800`. -/
def sevenDays : Nat := 604800

/-- The JWT payload built at both issue sites:
`{'userId': user.id, 'email': user.email, 'name': user.name or '',
'exp': int((datetime.utcnow() + timedelta(days=7)).timestamp())}`. -/
def issueToken (u : User) (now : Nat) (secret : String) : Token :=
  { userId := u.id
    email := u.email
    name := u.name.getD ""
    exp := now + sevenDays
    secret := secret }

/-- The `response.set_cookie('auth-token', token, httponly=True, secure=False,
samesite='Strict', max_age=604800, path='/')` call shared by `login` and
`signup`. -/
def authCookie (t : Token) : SetCookie :=
  { name := "auth-token"
    value := t
    httponly := true
    secure := false
    samesite := "Strict"
    maxAge := sevenDays
    path := "/" }

/-- `login` endpoint (`api/views.py` lines 91-147). -/
def login (users : List User) (env : Env) (now : Nat)
    (email password : Option String) : AuthResponse :=
  if pyFalsy email || pyFalsy password then
    .err 400 msgEmailPasswordRequired
  else
    match (authenticate users email password).1 with
    | some user =>
      let token := issueToken user now (loginSecret env)
      .ok 200 user.id user.email user.name (authCookie token)
    | none => .err 401 msgInvalidCredentials

/-- `UserManager.create_user` (`api/models.py`): stores the hashed password;
`AbstractUser` defaults `is_active=True`. -/
def createUser (nextId : Nat) (email password name : String) : User :=
  { id := nextId
    email := email
    name := some name
    passwordHash := some (hashPassword password)
    isActive := true }

/-- `signup` endpoint (`api/views.py` lines 150-216): 400 on a missing/empty
field, 400 on any existing user with the same email
(`User.objects.filter(email=email).exists()`), otherwise creates the user and
issues the cookie exactly as `login` does. -/
def signup (users : List User) (env : Env) (now : Nat) (nextId : Nat)
    (email password : Option String) (name : String) :
    AuthResponse × List User :=
  if pyFalsy email || pyFalsy password then
    (.err 400 msgEmailPasswordRequired, users)
  else
    let em := email.getD ""
    let pw := password.getD ""
    if users.any (fun u => u.email == em) then
      (.err 400 msgUserExists, users)
    else
      let user := createUser nextId em pw name
      let token := issueToken user now (signupSecret env)
      (.ok 201 user.id user.email user.name (authCookie token), users ++ [user])

/-- Response of the `get_current_user` endpoint (`/api/auth/me`). -/
inductive MeResponse where
  | err (status : Nat) (error : String)
  | ok (userId : Nat) (email : String) (name : Option String)
deriving Repr, DecidableEq

/-- `get_current_user` endpoint (`api/views.py` lines 219-248): no cookie
gives 401 `Not authenticated`; a decode failure or a missing user id gives
401 `Invalid token`; otherwise the user fields are returned. -/
def get_current_user (users : List User) (env : Env) (now : Nat)
    (cookie : CookieValue) : MeResponse :=
  match cookie with
  | .missing => .err 401 msgNotAuthenticated
  | .malformed => .err 401 msgInvalidToken
  | .token t =>
    match jwtDecode t (currentUserSecret env) now with
    | none => .err 401 msgInvalidToken
    | some uid =>
      match getUserById users uid with
      | none => .err 401 msgInvalidToken
      | some u => .ok u.id u.email u.name

/-- Result of `SignupForm.clean_email` (`accounts/forms.py` lines 13-38):
either the cleaned email, or a `forms.ValidationError`. -/
inductive CleanEmailResult where
  | ok (email : String)
  | validationError (msg : String)
deriving Repr, DecidableEq

/-- `SignupForm.clean_email`: an empty email passes through; an existing user
without a usable password (an invited account) is allowed to complete signup;
an existing user with a usable password raises the duplicate error; an unknown
email is allowed. -/
def clean_email (users : List User) (email : String) : CleanEmailResult :=
  if email == "" then .ok email
  else
    match getUserByEmail users email with
    | some existing =>
      if hasUsablePassword existing then .validationError msgFormDuplicate
      else .ok email
    | none => .ok email

/-- Newest-first order on songs, from `Song.Meta.ordering = ['-created_at']`. -/
def songLater (a b : Song) : Prop := b.createdAt ≤ a.createdAt

instance : DecidableRel songLater := fun a b => Nat.decLe b.createdAt a.createdAt

instance : IsTotal Song songLater :=
  ⟨fun a b => Nat.le_total b.createdAt a.createdAt⟩

instance : IsTrans Song songLater :=
  ⟨fun _ _ _ hab hbc => Nat.le_trans hbc hab⟩

/-- ORM result order of any `Song.objects` queryset under
`Meta.ordering = ['-created_at']`. -/
def orderByCreatedDesc (l : List Song) : List Song :=
  List.insertionSort songLater l

namespace SongViewSet

/-- `SongViewSet.get_user_from_token` (`api/views.py` lines 275-286): no
cookie, a `jwt.InvalidTokenError` (bad signature, bad structure, or expiry),
and a `User.DoesNotExist` all return `None`; the function never raises. -/
def get_user_from_token (users : List User) (env : Env) (now : Nat)
    (cookie : CookieValue) : Option User :=
  match cookie with
  | .missing => none
  | .malformed => none
  | .token t =>
    match jwtDecode t (songViewSecret env) now with
    | none => none
    | some uid => getUserById users uid

/-- `SongViewSet.get_queryset` (`api/views.py` lines 265-273):
the caller's own songs (`Song.objects.filter(user=user)`, in the model's
newest-first order), or `Song.objects.none()` for an anonymous caller. -/
def get_queryset (songs : List Song) (user : Option User) : List Song :=
  match user with
  | some u => orderByCreatedDesc (songs.filter (fun s => s.userId == u.id))
  | none => []

/-- `SongViewSet.list` (`api/views.py` lines 288-298): the same filter as
`get_queryset`, serialized; an anonymous caller gets the empty collection. -/
def list (songs : List Song) (user : Option User) : List Song :=
  match user with
  | some u => orderByCreatedDesc (songs.filter (fun s => s.userId == u.id))
  | none => []

end SongViewSet

/-- Writable input of `SongSerializer` (`api/serializers.py`): `user`,
`id`, `created_at`, `updated_at` and `author_name` are read-only, so a `user`
value supplied by the client is carried here only to be ignored. -/
structure SongPayload where
  user : Option Nat
  title : Option String
  sequence : Option String
  keyInfo : Option String
  bpm : Option Int
  notes : Option String
  isPublic : Option Bool
deriving Repr, DecidableEq

/-- `serializer.is_valid()` for `SongSerializer`: `title` (CharField, max
length 255, blank not allowed) and `sequence` (TextField) are the required
writable fields. -/
def payloadValid (p : SongPayload) : Bool :=
  match p.title, p.sequence with
  | some t, some s => !(t == "") && t.length ≤ 255 && !(s == "")
  | _, _ => false

/-- Response of the song endpoints: an error body with a status, a serialized
song, a serialized song list, or the 204 of a destroy. -/
inductive SongResponse where
  | err (status : Nat) (error : String)
  | ok (status : Nat) (s : Song)
  | okList (l : List Song)
  | noContent
deriving Repr, DecidableEq

namespace SongViewSet

/-- `SongViewSet.create` (`api/views.py` lines 300-314): 401 for an anonymous
caller before anything is validated or saved; otherwise the serializer is
validated and `serializer.save(user=user)` persists a song owned by the
caller — the read-only `user` field of the payload never reaches the model. -/
def create (songs : List Song) (user : Option User) (nextId now : Nat)
    (p : SongPayload) : SongResponse × List Song :=
  match user with
  | none => (.err 401 msgAuthRequired, songs)
  | some u =>
    if payloadValid p then
      let song : Song :=
        { id := nextId
          userId := u.id
          title := p.title.getD ""
          sequence := p.sequence.getD ""
          keyInfo := p.keyInfo
          bpm := p.bpm
          notes := p.notes
          isPublic := p.isPublic.getD false
          createdAt := now }
      (.ok 201 song, songs ++ [song])
    else (.err 400 msgSerializerInvalid, songs)

/-- Negation of Python's `song.user != user` object comparison: the caller is
the owning user.  False for every anonymous caller, since a `Song` always has
an owning `User`. -/
def ownsSong (user : Option User) (song : Song) : Bool :=
  match user with
  | some u => song.userId == u.id
  | none => false

/-- `SongViewSet.retrieve` (`api/views.py` lines 316-335): a missing id and a
song the caller neither owns nor is public both produce the identical
`{'error': 'Not found'}` 404. -/
def retrieve (songs : List Song) (user : Option User) (pk : Nat) :
    SongResponse :=
  match songs.find? (fun s => s.id == pk) with
  | none => .err 404 msgNotFound
  | some song =>
    if !ownsSong user song && !song.isPublic then .err 404 msgNotFound
    else .ok 200 song

/-- Default ModelViewSet `update` (wired by `router.register` in
`argyle/urls.py`; not overridden in `api/views.py`):
`get_object_or_404(self.get_queryset(), pk=pk)` raises 404 when the target is
outside the ownership-filtered queryset, then the serializer updates the
writable fields (`user` stays read-only). -/
def update (songs : List Song) (user : Option User) (pk : Nat)
    (p : SongPayload) : SongResponse × List Song :=
  match (get_queryset songs user).find? (fun s => s.id == pk) with
  | none => (.err 404 msgNotFound, songs)
  | some song =>
    if payloadValid p then
      let song2 : Song :=
        { song with
          title := p.title.getD ""
          sequence := p.sequence.getD ""
          keyInfo := p.keyInfo
          bpm := p.bpm
          notes := p.notes
          isPublic := p.isPublic.getD song.isPublic }
      (.ok 200 song2, songs.map (fun s => if s.id == pk then song2 else s))
    else (.err 400 msgSerializerInvalid, songs)

/-- Default ModelViewSet `destroy` (same `get_object_or_404` dispatch over the
ownership-filtered `get_queryset`), returning 204 on success. -/
def destroy (songs : List Song) (user : Option User) (pk : Nat) :
    SongResponse × List Song :=
  match (get_queryset songs user).find? (fun s => s.id == pk) with
  | none => (.err 404 msgNotFound, songs)
  | some _ => (.noContent, songs.filter (fun s => !(s.id == pk)))

end SongViewSet

/-! Concrete records used by the closed witness and counterexample theorems. -/

/-- Email of the invited placeholder account in the concrete scenarios. -/
def invitedEmail : String := "invited@example.com"

/-- An invited placeholder account: a stored user record with no usable
password (`set_password(None)`). -/
def invitedUser : User :=
  { id := 1
    email := invitedEmail
    name := some "Inv"
    passwordHash := none
    isActive := true }

/-- The plaintext that `knownUser.passwordHash` is the hash of. -/
def plainRight : String := "right-horse-battery"

/-- A complete account with the usable password `hashPassword plainRight`. -/
def knownUser : User :=
  { id := 2
    email := "known@example.com"
    name := some "K"
    passwordHash := some (hashPassword plainRight)
    isActive := true }

/-- A plaintext that does not match `knownUser.passwordHash`. -/
def plainWrong : String := "wrong-guess"

/-- An email that belongs to no stored user in the concrete scenarios. -/
def ghostEmail : String := "ghost@example.com"

/-- A fresh email used for a successful concrete signup. -/
def freshEmail : String := "fresh@example.com"

/-- A song owned by user id 42 and marked public, used to show that public
visibility does not open `update`/`destroy` to non-owners. -/
def publicSong : Song :=
  { id := 1
    userId := 42
    title := "T"
    sequence := "[]"
    keyInfo := none
    bpm := none
    notes := none
    isPublic := true
    createdAt := 0 }

/-- Plaintext password of `strangerUser`. -/
def plainStranger : String := "pw7-stranger"

/-- A caller who owns nothing in the concrete scenarios. -/
def strangerUser : User :=
  { id := 7
    email := "stranger@example.com"
    name := none
    passwordHash := some (hashPassword plainStranger)
    isActive := true }

/-- A minimal valid `SongSerializer` payload, carrying a client-supplied
`user` value that the serializer must ignore. -/
def samplePayload : SongPayload :=
  { user := some 999
    title := some "T"
    sequence := some "[]"
    keyInfo := none
    bpm := none
    notes := none
    isPublic := none }

/-- An expired token signed with the default secret, for the access-gate
scenarios at `now = 1000000`. -/
def staleToken : Token :=
  { userId := 2
    email := "known@example.com"
    name := "K"
    exp := 5
    secret := defaultSecret }

/-- Spec-side access condition for `retrieve`: the caller owns the song or
the song is public. -/
def canAccess (user : Option User) (song : Song) : Bool :=
  SongViewSet.ownsSong user song || song.isPublic

/-- C7: the token signing secret is the first non-empty value among the
`NEXTAUTH_SECRET` environment variable, the `SECRET_KEY` environment variable
and the fixed built-in default, and the `login` and `signup` issue sites and
the `get_current_user` and `SongViewSet.get_user_from_token` validation sites
all resolve the secret by this same rule. -/
theorem secret_resolution_consistent (env : Env) :
    loginSecret env = signupSecret env ∧
    loginSecret env = currentUserSecret env ∧
    loginSecret env = songViewSecret env ∧
    firstNonEmpty [env.nextauthSecret, env.secretKey, some defaultSecret] =
      some (loginSecret env) := by
  refine ⟨rfl, rfl, rfl, ?_⟩
  rcases env with ⟨ns, sk⟩
  cases ns with
  | none =>
    cases sk with
    | none => rfl
    | some s =>
      simp only [firstNonEmpty, loginSecret, pyOrStr]
      cases hs : s == "" <;> simp [hs, firstNonEmpty] <;> decide
  | some s =>
    cases hs : s == "" with
    | false => simp [firstNonEmpty, loginSecret, pyOrStr, hs]
    | true =>
      cases sk with
      | none => simp [firstNonEmpty, loginSecret, pyOrStr, hs] <;> decide
      | some s2 =>
        simp only [firstNonEmpty, loginSecret, pyOrStr, hs]
        cases hs2 : s2 == "" <;> simp [hs2, firstNonEmpty] <;> decide

/-- C4: `list` returns the empty collection for every anonymous caller, and
for an authenticated caller returns exactly the songs owned by that caller,
in newest-first creation order. -/
theorem list_owner_scoped (songs : List Song) (u : User) (s : Song) :
    SongViewSet.list songs none = [] ∧
    (s ∈ SongViewSet.list songs (some u) ↔ s ∈ songs ∧ s.userId = u.id) ∧
    List.Sorted songLater (SongViewSet.list songs (some u)) := by
  refine ⟨rfl, ?_, ?_⟩
  · simp [SongViewSet.list, orderByCreatedDesc, List.mem_insertionSort,
      List.mem_filter]
  · exact List.sorted_insertionSort songLater _

/-- C2: `retrieve` produces the one identical `{'error': 'Not found'}` 404
exactly when no song has the requested id or the caller can neither claim
ownership nor public visibility, and returns the stored song exactly in the
remaining case. -/
theorem retrieve_hides_existence (songs : List Song) (user : Option User)
    (pk : Nat) :
    (SongViewSet.retrieve songs user pk = SongResponse.err 404 msgNotFound ↔
      (songs.find? (fun s => s.id == pk) = none ∨
        ∃ song, songs.find? (fun s => s.id == pk) = some song ∧
          canAccess user song = false)) ∧
    (∀ song, SongViewSet.retrieve songs user pk = SongResponse.ok 200 song ↔
      songs.find? (fun s => s.id == pk) = some song ∧
        canAccess user song = true) := by
  unfold SongViewSet.retrieve canAccess
  cases hfind : songs.find? (fun s => s.id == pk) with
  | none => simp
  | some song =>
    cases ho : SongViewSet.ownsSong user song <;>
      cases hp : song.isPublic <;> simp [ho, hp]

/-- C10: a login or signup request with a missing or empty email or password
is rejected with the 400 `Email and password are required` body, before any
authentication attempt, user creation or token issuance (the user store is
returned unchanged and no cookie is produced). -/
theorem missing_fields_rejected_early (users : List User) (env : Env)
    (now nextId : Nat) (email password : Option String) (name : String)
    (h : pyFalsy email = true ∨ pyFalsy password = true) :
    login users env now email password =
      AuthResponse.err 400 msgEmailPasswordRequired ∧
    signup users env now nextId email password name =
      (AuthResponse.err 400 msgEmailPasswordRequired, users) := by
  rcases h with h | h <;> simp [login, signup, h]

/-- Closed instance of `missing_fields_rejected_early`: an empty email with a
non-empty password is rejected by both endpoints with the 400 body. -/
theorem missing_fields_rejected_early_witness :
    login [knownUser] ⟨none, none⟩ 0 (some "") (some plainRight) =
      AuthResponse.err 400 msgEmailPasswordRequired ∧
    signup [knownUser] ⟨none, none⟩ 0 3 (some "") (some plainRight) "" =
      (AuthResponse.err 400 msgEmailPasswordRequired, [knownUser]) :=
  missing_fields_rejected_early [knownUser] ⟨none, none⟩ 0 3 (some "")
    (some plainRight) "" (Or.inl rfl)

/-- C5: `create` answers 401 to every anonymous caller and persists nothing;
for an authenticated caller with a payload the serializer accepts it persists
exactly one new song owned by that caller, and the client-supplied `user`
field of the payload has no effect on the outcome. -/
theorem create_owner_from_identity (songs : List Song) (u : User)
    (nextId now : Nat) (p : SongPayload) (hp : payloadValid p = true) :
    SongViewSet.create songs none nextId now p =
      (SongResponse.err 401 msgAuthRequired, songs) ∧
    (∃ s, SongViewSet.create songs (some u) nextId now p =
        (SongResponse.ok 201 s, songs ++ [s]) ∧ s.userId = u.id) ∧
    (∀ v, SongViewSet.create songs (some u) nextId now { p with user := v } =
      SongViewSet.create songs (some u) nextId now p) := by
  refine ⟨rfl, ?_, ?_⟩
  · refine ⟨⟨nextId, u.id, p.title.getD "", p.sequence.getD "", p.keyInfo,
      p.bpm, p.notes, p.isPublic.getD false, now⟩, ?_, rfl⟩
    simp [SongViewSet.create, hp]
  · intro v
    have hv : payloadValid { p with user := v } = payloadValid p := rfl
    simp [SongViewSet.create, hv]

/-- Closed instance of `create_owner_from_identity` at the sample payload
(whose `user` field is 999): the anonymous caller gets the 401, and the
stranger caller (id 7) gets a song owned by id 7. -/
theorem create_owner_from_identity_witness :
    SongViewSet.create [] none 10 50 samplePayload =
      (SongResponse.err 401 msgAuthRequired, []) ∧
    (∃ s, SongViewSet.create [] (some strangerUser) 10 50 samplePayload =
        (SongResponse.ok 201 s, [] ++ [s]) ∧ s.userId = strangerUser.id) ∧
    (∀ v, SongViewSet.create [] (some strangerUser) 10 50
        { samplePayload with user := v } =
      SongViewSet.create [] (some strangerUser) 10 50 samplePayload) :=
  create_owner_from_identity [] strangerUser 10 50 samplePayload (by decide)

/-- C9: `update` and `destroy` dispatch through the ownership-filtered
`get_queryset`, so a caller who is anonymous or does not own the target song
(public or not) gets the 404 `Not found` and the store is unchanged. -/
theorem update_destroy_owner_only (songs : List Song) (user : Option User)
    (pk : Nat) (p : SongPayload)
    (h : user.all
      (fun u => songs.all (fun s => !(s.id == pk) || !(s.userId == u.id))) =
      true) :
    SongViewSet.update songs user pk p =
      (SongResponse.err 404 msgNotFound, songs) ∧
    SongViewSet.destroy songs user pk =
      (SongResponse.err 404 msgNotFound, songs) := by
  have hq : (SongViewSet.get_queryset songs user).find?
      (fun s => s.id == pk) = none := by
    cases user with
    | none => rfl
    | some u =>
      rw [List.find?_eq_none]
      intro s hs
      have hmem : s ∈ songs.filter (fun t => t.userId == u.id) := by
        simpa [SongViewSet.get_queryset, orderByCreatedDesc,
          List.mem_insertionSort] using hs
      rcases List.mem_filter.mp hmem with ⟨hsin, hown⟩
      have hall := (List.all_eq_true.mp (Option.all_some .. ▸ h) s hsin)
      rcases Bool.or_eq_true_iff.mp hall with hid | hnotown
      · simpa using hid
      · rw [hown] at hnotown
        cases hnotown
  constructor
  · unfold SongViewSet.update
    rw [hq]
  · unfold SongViewSet.destroy
    rw [hq]

/-- Closed instance of `update_destroy_owner_only`: the stranger (id 7) hits
404 on update and destroy of the public song owned by id 42, and the store is
unchanged. -/
theorem update_destroy_owner_only_witness :
    SongViewSet.update [publicSong] (some strangerUser) 1 samplePayload =
      (SongResponse.err 404 msgNotFound, [publicSong]) ∧
    SongViewSet.destroy [publicSong] (some strangerUser) 1 =
      (SongResponse.err 404 msgNotFound, [publicSong]) :=
  update_destroy_owner_only [publicSong] (some strangerUser) 1 samplePayload
    (by decide)

/-- C8: the two failing login shapes — unknown email, and known email with a
wrong password — return the identical generic 401 `Invalid credentials` body,
and both paths perform exactly one password-hash computation (the dummy
`User().set_password` on the unknown-email path, `check_password` on the
known-email path). -/
theorem login_failure_indistinguishable (users : List User) (env : Env)
    (now : Nat) (e1 p1 e2 p2 : String) (u : User)
    (h1 : getUserByEmail users e1 = none)
    (h2 : getUserByEmail users e2 = some u)
    (h3 : checkPassword u p2 = false)
    (hne : (e1 == "") = false ∧ (p1 == "") = false ∧ (e2 == "") = false ∧
      (p2 == "") = false) :
    login users env now (some e1) (some p1) =
      AuthResponse.err 401 msgInvalidCredentials ∧
    login users env now (some e2) (some p2) =
      AuthResponse.err 401 msgInvalidCredentials ∧
    login users env now (some e1) (some p1) =
      login users env now (some e2) (some p2) ∧
    (authenticate users (some e1) (some p1)).2 = 1 ∧
    (authenticate users (some e2) (some p2)).2 = 1 := by
  obtain ⟨he1, hp1, he2, hp2⟩ := hne
  have ha1 : authenticate users (some e1) (some p1) = (none, 1) := by
    simp [authenticate, h1]
  have ha2 : authenticate users (some e2) (some p2) = (none, 1) := by
    simp [authenticate, h2, h3]
  have hl1 : login users env now (some e1) (some p1) =
      AuthResponse.err 401 msgInvalidCredentials := by
    simp [login, pyFalsy, he1, hp1, ha1]
  have hl2 : login users env now (some e2) (some p2) =
      AuthResponse.err 401 msgInvalidCredentials := by
    simp [login, pyFalsy, he2, hp2, ha2]
  exact ⟨hl1, hl2, hl1.trans hl2.symm, by rw [ha1], by rw [ha2]⟩

/-- Closed instance of `login_failure_indistinguishable`: against the store
holding only `knownUser`, the ghost email and the known email with a wrong
password produce the same 401 with one hash computation each. -/
theorem login_failure_indistinguishable_witness :
    login [knownUser] ⟨none, none⟩ 0 (some ghostEmail) (some plainWrong) =
      AuthResponse.err 401 msgInvalidCredentials ∧
    login [knownUser] ⟨none, none⟩ 0 (some knownUser.email)
        (some plainWrong) =
      AuthResponse.err 401 msgInvalidCredentials ∧
    login [knownUser] ⟨none, none⟩ 0 (some ghostEmail) (some plainWrong) =
      login [knownUser] ⟨none, none⟩ 0 (some knownUser.email)
        (some plainWrong) ∧
    (authenticate [knownUser] (some ghostEmail) (some plainWrong)).2 = 1 ∧
    (authenticate [knownUser] (some knownUser.email) (some plainWrong)).2 =
      1 :=
  login_failure_indistinguishable [knownUser] ⟨none, none⟩ 0 ghostEmail
    plainWrong knownUser.email plainWrong knownUser (by decide) (by decide)
    (by decide) ⟨by decide, by decide, by decide, by decide⟩

/-- C6: every token issued by a successful login or signup expires exactly
`604800` seconds (7 days) after issuance and travels in a cookie named
`auth-token` that is HTTP-only, `SameSite=Strict`, has max-age `604800`, and
path `/`. -/
theorem token_cookie_policy (users : List User) (env : Env) (now : Nat)
    (email password email2 password2 : Option String) (nextId : Nat)
    (name : String) (st uid : Nat) (em : String) (nm : Option String)
    (ck : SetCookie) (st2 uid2 : Nat) (em2 : String) (nm2 : Option String)
    (ck2 : SetCookie)
    (hl : login users env now email password =
      AuthResponse.ok st uid em nm ck)
    (hs : (signup users env now nextId email2 password2 name).1 =
      AuthResponse.ok st2 uid2 em2 nm2 ck2) :
    ck.name = "auth-token" ∧ ck.httponly = true ∧ ck.samesite = "Strict" ∧
    ck.maxAge = 604800 ∧ ck.path = "/" ∧ ck.value.exp = now + 604800 ∧
    ck2.name = "auth-token" ∧ ck2.httponly = true ∧
    ck2.samesite = "Strict" ∧ ck2.maxAge = 604800 ∧ ck2.path = "/" ∧
    ck2.value.exp = now + 604800 := by
  unfold login at hl
  unfold signup at hs
  split at hl
  · cases hl
  · split at hl
    · injection hl with h1 h2 h3 h4 h5
      subst h5
      split at hs
      · cases hs
      · dsimp only at hs
        split at hs
        · cases hs
        · injection hs with g1 g2 g3 g4 g5
          subst g5
          exact ⟨rfl, rfl, rfl, rfl, rfl, rfl, rfl, rfl, rfl, rfl, rfl, rfl⟩
    · cases hl

/-- Closed instance of `token_cookie_policy`: a concrete successful login of
`knownUser` and a concrete successful signup under `freshEmail`, both at
`now = 11`, produce cookies satisfying every clause of the policy. -/
theorem token_cookie_policy_witness :
    (login [knownUser] ⟨none, none⟩ 11 (some knownUser.email)
        (some plainRight) =
      AuthResponse.ok 200 knownUser.id knownUser.email knownUser.name
        (authCookie (issueToken knownUser 11 (loginSecret ⟨none, none⟩)))) ∧
    ((signup [knownUser] ⟨none, none⟩ 11 3 (some freshEmail)
        (some plainWrong) "F").1 =
      AuthResponse.ok 201 3 freshEmail (some "F")
        (authCookie (issueToken (createUser 3 freshEmail plainWrong "F") 11
          (signupSecret ⟨none, none⟩)))) ∧
    ((authCookie (issueToken knownUser 11 (loginSecret ⟨none, none⟩))).name =
        "auth-token" ∧
      (authCookie (issueToken knownUser 11
        (loginSecret ⟨none, none⟩))).value.exp = 11 + 604800) := by
  have hl : login [knownUser] ⟨none, none⟩ 11 (some knownUser.email)
      (some plainRight) =
      AuthResponse.ok 200 knownUser.id knownUser.email knownUser.name
        (authCookie (issueToken knownUser 11 (loginSecret ⟨none, none⟩))) :=
    by decide
  have hs : (signup [knownUser] ⟨none, none⟩ 11 3 (some freshEmail)
      (some plainWrong) "F").1 =
      AuthResponse.ok 201 3 freshEmail (some "F")
        (authCookie (issueToken (createUser 3 freshEmail plainWrong "F") 11
          (signupSecret ⟨none, none⟩))) := by decide
  have hall := token_cookie_policy [knownUser] ⟨none, none⟩ 11
    (some knownUser.email) (some plainRight) (some freshEmail)
    (some plainWrong) 3 "F" 200 knownUser.id knownUser.email knownUser.name
    (authCookie (issueToken knownUser 11 (loginSecret ⟨none, none⟩))) 201 3
    freshEmail (some "F")
    (authCookie (issueToken (createUser 3 freshEmail plainWrong "F") 11
      (signupSecret ⟨none, none⟩))) hl hs
  exact ⟨hl, hs, hall.1, hall.2.2.2.2.2.1⟩

/-- C3 counterexample: the cited `get_current_user` endpoint does carry error
detail separating the absent-cookie case from the invalid-token cases — the
401 bodies differ (`Not authenticated` versus `Invalid token`), so the four
failure cases do not all resolve with indistinguishable error detail. -/
theorem me_endpoint_distinguishes_absent_cookie :
    get_current_user [] ⟨none, none⟩ 0 CookieValue.missing =
      MeResponse.err 401 msgNotAuthenticated ∧
    get_current_user [] ⟨none, none⟩ 0 CookieValue.malformed =
      MeResponse.err 401 msgInvalidToken ∧
    msgNotAuthenticated ≠ msgInvalidToken :=
  ⟨rfl, rfl, by decide⟩

/-- C3 amended: identity resolution never raises and fails closed: in
`SongViewSet.get_user_from_token` an absent cookie, a malformed token, a bad
signature or expired token, and a valid token whose user id matches no record
all resolve identically to the anonymous identity `none`; `get_current_user`
answers 401 to all four, with one message for the absent cookie and a single
shared message for the three invalid-token cases. -/
theorem access_gate_fail_closed (users : List User) (env : Env) (now : Nat)
    (t : Token)
    (hbad : t.secret ≠ songViewSecret env ∨ t.exp ≤ now ∨
      getUserById users t.userId = none) :
    SongViewSet.get_user_from_token users env now CookieValue.missing =
      none ∧
    SongViewSet.get_user_from_token users env now CookieValue.malformed =
      none ∧
    SongViewSet.get_user_from_token users env now (CookieValue.token t) =
      none ∧
    get_current_user users env now CookieValue.missing =
      MeResponse.err 401 msgNotAuthenticated ∧
    get_current_user users env now CookieValue.malformed =
      MeResponse.err 401 msgInvalidToken ∧
    get_current_user users env now (CookieValue.token t) =
      MeResponse.err 401 msgInvalidToken := by
  refine ⟨rfl, rfl, ?_, rfl, rfl, ?_⟩
  · unfold SongViewSet.get_user_from_token
    rcases hbad with h | h | h
    · have hb : (t.secret == songViewSecret env) = false := by simp [h]
      simp [jwtDecode, hb]
    · have hb : ¬ now < t.exp := Nat.not_lt.mpr h
      simp [jwtDecode, hb]
    · cases hb : t.secret == songViewSecret env <;>
        simp [jwtDecode, hb, h]
      by_cases hlt : now < t.exp <;> simp [hlt, h]
  · unfold get_current_user
    have hsec : currentUserSecret env = songViewSecret env := rfl
    rcases hbad with h | h | h
    · have hb : (t.secret == currentUserSecret env) = false := by
        rw [hsec]; simp [h]
      simp [jwtDecode, hb]
    · have hb : ¬ now < t.exp := Nat.not_lt.mpr h
      simp [jwtDecode, hb]
    · cases hb : t.secret == currentUserSecret env <;>
        simp [jwtDecode, hb, h]
      by_cases hlt : now < t.exp <;> simp [hlt, h]

/-- Closed instance of `access_gate_fail_closed` at the expired `staleToken`
(`exp = 5`, checked at `now = 1000000`): both resolution sites treat it like
the other failure shapes. -/
theorem access_gate_fail_closed_witness :
    SongViewSet.get_user_from_token [knownUser] ⟨none, none⟩ 1000000
      CookieValue.missing = none ∧
    SongViewSet.get_user_from_token [knownUser] ⟨none, none⟩ 1000000
      CookieValue.malformed = none ∧
    SongViewSet.get_user_from_token [knownUser] ⟨none, none⟩ 1000000
      (CookieValue.token staleToken) = none ∧
    get_current_user [knownUser] ⟨none, none⟩ 1000000 CookieValue.missing =
      MeResponse.err 401 msgNotAuthenticated ∧
    get_current_user [knownUser] ⟨none, none⟩ 1000000 CookieValue.malformed =
      MeResponse.err 401 msgInvalidToken ∧
    get_current_user [knownUser] ⟨none, none⟩ 1000000
      (CookieValue.token staleToken) =
      MeResponse.err 401 msgInvalidToken :=
  access_gate_fail_closed [knownUser] ⟨none, none⟩ 1000000 staleToken
    (Or.inr (Or.inl (by decide)))

/-- C1 counterexample: `invitedUser` has no usable password, yet the API
signup endpoint cited by the claim rejects a signup under its email with the
duplicate-account 400 and leaves the store — and so the missing password —
unchanged, instead of succeeding. -/
theorem api_signup_rejects_invited :
    hasUsablePassword invitedUser = false ∧
    signup [invitedUser] ⟨none, none⟩ 0 2 (some invitedEmail)
        (some plainWrong) "Inv" =
      (AuthResponse.err 400 msgUserExists, [invitedUser]) :=
  ⟨rfl, by decide⟩

/-- C1 amended: the form-based signup path (`SignupForm.clean_email`) raises
the duplicate-account error exactly when the email belongs to an existing
user with a usable password, and accepts the email otherwise — in particular
over an invited, passwordless account, letting that signup proceed; the API
signup endpoint instead rejects any email belonging to an existing user
record, invited or not, with its duplicate-account error. -/
theorem signup_duplicate_policy (users : List User) (env : Env)
    (now nextId : Nat) (email pw name : String)
    (hemail : (email == "") = false) (hpw : (pw == "") = false) :
    (clean_email users email =
        CleanEmailResult.validationError msgFormDuplicate ↔
      ∃ u, getUserByEmail users email = some u ∧
        hasUsablePassword u = true) ∧
    (clean_email users email = CleanEmailResult.ok email ↔
      ¬ ∃ u, getUserByEmail users email = some u ∧
        hasUsablePassword u = true) ∧
    ((signup users env now nextId (some email) (some pw) name).1 =
        AuthResponse.err 400 msgUserExists ↔
      ∃ u, u ∈ users ∧ u.email = email) := by
  have hiff : (users.any fun u => u.email == email) = true ↔
      ∃ u, u ∈ users ∧ u.email = email := by
    simp [List.any_eq_true]
  refine ⟨?_, ?_, ?_⟩
  · unfold clean_email
    simp only [hemail, Bool.false_eq_true, if_false]
    cases hfind : getUserByEmail users email with
    | none => simp
    | some u => cases hu : hasUsablePassword u <;> simp [hu]
  · unfold clean_email
    simp only [hemail, Bool.false_eq_true, if_false]
    cases hfind : getUserByEmail users email with
    | none => simp
    | some u => cases hu : hasUsablePassword u <;> simp [hu]
  · rw [← hiff]
    cases hany : users.any fun u => u.email == email with
    | true =>
      constructor
      · intro _; rfl
      · intro _; simp [signup, pyFalsy, hemail, hpw, hany]
    | false =>
      constructor
      · intro hcontr
        simp [signup, pyFalsy, hemail, hpw, hany] at hcontr
      · intro hcontr
        cases hcontr

/-- Closed instance of `signup_duplicate_policy` over the store holding only
the invited, passwordless account: the form path accepts the invited email
(no duplicate error) while the API signup path reports the duplicate. -/
theorem signup_duplicate_policy_witness :
    (clean_email [invitedUser] invitedEmail =
        CleanEmailResult.validationError msgFormDuplicate ↔
      ∃ u, getUserByEmail [invitedUser] invitedEmail = some u ∧
        hasUsablePassword u = true) ∧
    (clean_email [invitedUser] invitedEmail =
        CleanEmailResult.ok invitedEmail ↔
      ¬ ∃ u, getUserByEmail [invitedUser] invitedEmail = some u ∧
        hasUsablePassword u = true) ∧
    ((signup [invitedUser] ⟨none, none⟩ 0 2 (some invitedEmail)
        (some plainWrong) "Inv").1 =
        AuthResponse.err 400 msgUserExists ↔
      ∃ u, u ∈ [invitedUser] ∧ u.email = invitedEmail) :=
  signup_duplicate_policy [invitedUser] ⟨none, none⟩ 0 2 invitedEmail
    plainWrong "Inv" (by decide) (by decide)

end Argyle
